import Mathlib

/-!
Verification development for the dolsdk2001 build-description generator
(`src/tools/project.py`, `src/tools/project/config.py`, `src/tools/project/build.py`,
`src/configure.py`).

The Python sources are shallowly embedded:

* `pathlib` relative POSIX paths become `List String` of components
  (`PurePosixPath` drops empty components and `"."`; absolute paths and `".."`
  never occur in the modelled code paths);
* Python dataclasses become structures with the same field names;
* functions that can call `sys.exit`/raise become `Except String`-valued or
  `Option`-valued functions;
* the filesystem touched by the generator becomes an explicit association
  list from paths to file data.
-/

/-- A relative POSIX path, as its list of components
(mirrors `pathlib.PurePosixPath.parts` for the relative paths used here). -/
abbrev FPath := List String

/-- Helper for `splitOnChar`: split a character list at every occurrence of
`c`, accumulating the current piece in reverse. -/
def splitCharAux (c : Char) : List Char → List Char → List (List Char)
  | [], acc => [acc.reverse]
  | x :: xs, acc =>
    if x = c then acc.reverse :: splitCharAux c xs []
    else splitCharAux c xs (x :: acc)

/-- Python `str.split(sep)` for a one-character separator (also the behaviour
of `String.splitOn` for such separators, re-implemented so that it reduces). -/
def splitOnChar (c : Char) (s : String) : List String :=
  (splitCharAux c s.toList []).map String.mk

/-- Python `str.startswith(prefix)` (re-implemented over character lists). -/
def startsWithStr (s pre : String) : Bool :=
  pre.toList.isPrefixOf s.toList

/-- Python `int(s)` on a non-negative decimal string, `none` where `int`
raises `ValueError` (empty string or non-digit character). -/
def parseNat (s : String) : Option Nat :=
  if s.toList ≠ [] ∧ s.toList.all Char.isDigit then
    some (s.toList.foldl (fun acc c => acc * 10 + (c.toNat - 48)) 0)
  else none

/-- Parse a string into path components, as `pathlib` does for relative POSIX
paths: split on `/`, dropping empty components and `"."`. -/
def mkPath (s : String) : FPath :=
  (splitOnChar '/' s).filter (fun c => c != "" && c != ".")

/-- The `/` operator of `pathlib` applied to a string right operand
(`p / s`): the right operand is itself parsed into components. -/
def pjoin (p : FPath) (s : String) : FPath := p ++ mkPath s

/-- `PurePosixPath.as_posix()` / `str()` of a relative path: components joined
with `/`; the empty path prints as `"."`. -/
def asPosix (p : FPath) : String :=
  if p.isEmpty then "." else String.intercalate "/" p

/-- Index of the last `'.'` of a string, if any (Python `str.rfind('.')`,
restricted to the found case). -/
def rfindDotIdx (s : String) : Option Nat :=
  (List.range s.toList.length).foldl
    (fun acc i => if s.toList.getD i ' ' = '.' then some i else acc) none

/-- Replace the `pathlib` suffix of a single path component:
`name.with_suffix(suffix)` keeps the stem (the part before the last `'.'`,
provided that dot is neither leading nor trailing, matching
`0 < i < len(name) - 1` in `pathlib`) and appends `suffix`. -/
def replaceSuffix (s suffix : String) : String :=
  match rfindDotIdx s with
  | some i =>
    if 0 < i ∧ i < s.toList.length - 1 then String.mk (s.toList.take i) ++ suffix
    else s ++ suffix
  | none => s ++ suffix

/-- `PurePath.with_suffix` on a component-list path: rewrite the suffix of the
last component (the empty path is never given one in the modelled code). -/
def withSuffix : FPath → String → FPath
  | [], _ => []
  | [c], suffix => [replaceSuffix c suffix]
  | c :: rest, suffix => c :: withSuffix rest suffix

/-- `p.relative_to(base)`: drop the prefix `base` from `p`.  In `pathlib` this
raises when `base` is not a prefix of `p`; every call site in the embedded code
passes a `p` built as `base ++ rest`, so the else-branch is dead. -/
def relativeTo (p base : FPath) : FPath :=
  if base.isPrefixOf p then p.drop base.length else p

/-- Python `str()` on an `Optional[str]` (`str(None) = "None"`). -/
def pyStr : Option String → String
  | none => "None"
  | some s => s

/-- Python `" ".join(...)`. -/
def joinSp (l : List String) : String := String.intercalate " " l

namespace Cfg

/-- `tools/project/config.py` dataclass `Unit`. -/
structure Unit where
  name : String
  complete : Bool
  signed_char : Bool := false
deriving DecidableEq

/-- `tools/project/config.py` dataclass `Profile`. -/
structure Profile where
  name : String
  archive_suffix : String
  cflags : List String
deriving DecidableEq

/-- `tools/project/config.py` dataclass `Diff`. -/
structure Diff where
  name : String
  target_path : FPath
  base_path : FPath
  reverse_fn_order : Bool
  complete : Bool
deriving DecidableEq

/-- `tools/project/build.py` dataclass `Object` (the data fields; the
`write`/`from_unit` methods raise `NotImplementedError` and are not modelled). -/
structure Object where
  src : FPath
  base : FPath
  target : FPath
  dwarf : FPath
  mwcc : FPath
  cflags : List String
deriving DecidableEq

/-- `tools/project/build.py` dataclass `Archive`.  The Python `manifest` is a
`Set[Path]`; it is modelled by the deduplicated list of its members. -/
structure Archive where
  src : FPath
  dst : FPath
  manifest : List FPath
deriving DecidableEq

/-- `tools/project/config.py` dataclass `ProjectConfig`.

The source's `output_dir` and `archive_dir` are properties whose bodies
`raise NotImplementedError` (with the intended implementations left in
comments: `build_dir / version` and `orig_dir / version`).
Modelled from the spec: they are carried as abstract directory values
(the spec's `out_root` and the reference-archive root). -/
structure ProjectConfig where
  profiles : List Profile
  version : Option String := none
  src_dir : FPath := mkPath "src"
  build_dir : FPath := mkPath "build"
  orig_dir : FPath := mkPath "orig"
  mwcc : FPath := mkPath "GC/1.2.5"
  output_dir : FPath
  archive_dir : FPath
deriving DecidableEq

/-- `tools/project/config.py` dataclass `Lib` (its three accumulated lists). -/
structure Lib where
  archives : List Archive
  objects : List Object
  diffs : List Diff
deriving DecidableEq

/-- Body of the `for profile in config.profiles` loop of `Lib.__init__`:
appends one `Archive` and, per unit, one `Object` and one `Diff`. -/
def libStep (config : ProjectConfig) (name : String) (units : List Unit)
    (acc : Lib) (profile : Profile) : Lib :=
  let makeDir := fun (dirName : String) =>
    pjoin (pjoin (pjoin config.output_dir dirName) profile.name) name
  let archiveName := name ++ profile.archive_suffix ++ ".a"
  let targetDir := makeDir "src"
  let baseDir := makeDir "obj"
  let dwarfDir := makeDir "dwarf"
  let createPair := fun (u : Unit) =>
    let srcName := mkPath u.name
    let objName := withSuffix srcName ".o"
    let basePath := baseDir ++ objName
    let targetPath := targetDir ++ objName
    let obj : Object :=
      { src := pjoin config.src_dir name ++ srcName
        base := basePath
        target := targetPath
        dwarf := dwarfDir ++ withSuffix srcName ".c"
        mwcc := mkPath "GC/1.2.5"
        cflags := ("-char " ++ (if u.signed_char then "signed" else "unsigned"))
          :: profile.cflags }
    let diff : Diff :=
      { name := asPosix (withSuffix (mkPath profile.name ++ mkPath name ++ srcName) "")
        target_path := targetPath
        base_path := basePath
        reverse_fn_order := false
        complete := u.complete }
    (obj, diff)
  let pairs := units.map createPair
  { archives := acc.archives ++
      [{ src := pjoin config.archive_dir archiveName
         dst := baseDir
         manifest := (pairs.map (fun pr => relativeTo pr.1.base baseDir)).dedup }]
    objects := acc.objects ++ pairs.map Prod.fst
    diffs := acc.diffs ++ pairs.map Prod.snd }

/-- `Lib.__init__(config, name, units)` of `tools/project/config.py`: starting
from three empty lists, fold the per-profile loop body over
`config.profiles`.  (`units` is re-iterated once per profile; the claims treat
it as a list, matching the call sites.) -/
def Lib.init (config : ProjectConfig) (name : String) (units : List Unit) : Lib :=
  config.profiles.foldl (libStep config name units) ⟨[], [], []⟩

end Cfg

example : mkPath "GC/1.2.5" = ["GC", "1.2.5"] := by decide
example : withSuffix ["os", "OSAlloc.c"] ".o" = ["os", "OSAlloc.o"] := by decide
example : withSuffix ["time.dolphin.c"] "" = ["time.dolphin"] := by decide
example : asPosix ["release", "os", "OSAlloc"] = "release/os/OSAlloc" := by decide

namespace Proj

/-- `tools/project.py` class `Object`: `completed`, `name`, and the `options`
dictionary, modelled as named fields with the constructor's defaults
(`"source"` defaults to `name`; `configure.py` only ever passes positional
arguments, other call sites may override fields). -/
structure Object where
  name : String
  completed : Bool
  add_to_all : Bool := true
  cflags : Option (List String) := none
  extra_cflags : Option (List String) := none
  mw_version : Option String := none
  shiftjis : Bool := true
  source : String
deriving DecidableEq

/-- `Object(completed, name)` as used by `configure.py`: the `source` option
defaults to `name`. -/
def Object.make (completed : Bool) (name : String) : Object :=
  { name := name, completed := completed, source := name }

/-- The per-library dictionary produced by `configure.py`'s `DolphinLib`
(`{"lib", "archive", "mw_version", "cflags", "host", "objects"}`); the
optional `"src_dir"` key read by `generate_objdiff_config` is carried as an
`Option`. -/
structure LibDict where
  lib : String
  archive : FPath
  mw_version : String
  cflags : List String
  host : Bool
  objects : List Object
  src_dir : Option FPath := none
deriving DecidableEq

/-- `tools/project.py` class `ProjectConfig.__init__`: every attribute with
its constructor default.  Attributes typed `Optional` in the source are
`Option`s here. -/
structure ProjectConfig where
  build_dir : FPath := mkPath "build"
  src_dir : FPath := mkPath "src"
  tools_dir : FPath := mkPath "tools"
  dtk_tag : Option String := none
  build_dtk_path : Option FPath := none
  compilers_tag : Option String := none
  compilers_path : Option FPath := none
  wibo_tag : Option String := none
  wrapper : Option FPath := none
  sjiswrap_tag : Option String := none
  sjiswrap_path : Option FPath := none
  build_rels : Bool := true
  check_sha_path : Option FPath := none
  config_path : Option FPath := none
  debug : Bool := false
  generate_map : Bool := false
  ldflags : Option (List String) := none
  libs : Option (List LibDict) := none
  linker_version : Option String := none
  version : Option String := none
  warn_missing_config : Bool := false
  warn_missing_source : Bool := false
  rel_strip_partial : Bool := true
  rel_empty_file : Option FPath := none
  progress_all : Bool := true
  progress_modules : Bool := true
  progress_each_module : Bool := true
  progress_use_fancy : Bool := false
  progress_code_fancy_frac : Int := 0
  progress_code_fancy_item : String := ""
  progress_data_fancy_frac : Int := 0
  progress_data_fancy_item : String := ""
deriving DecidableEq

/-- `ProjectConfig.validate`: `sys.exit(f"ProjectConfig.{attr} missing")` for
the first unset required attribute, in the source's order.  (`build_dir`,
`src_dir` and `tools_dir` are non-`Optional` and always set, so only the six
`Optional` attributes of the list can trigger the exit.) -/
def validate (c : ProjectConfig) : Option String :=
  if c.check_sha_path = none then some "ProjectConfig.check_sha_path missing"
  else if c.config_path = none then some "ProjectConfig.config_path missing"
  else if c.ldflags = none then some "ProjectConfig.ldflags missing"
  else if c.linker_version = none then some "ProjectConfig.linker_version missing"
  else if c.libs = none then some "ProjectConfig.libs missing"
  else if c.version = none then some "ProjectConfig.version missing"
  else none

/-- `ProjectConfig.out_path`: `build_dir / str(version)`. -/
def ProjectConfig.out_path (c : ProjectConfig) : FPath :=
  pjoin c.build_dir (pyStr c.version)

/-- The `for obj in lib["objects"]` inner scan of `ProjectConfig.find_object`. -/
def findObjectInLibs : List LibDict → String → Option (LibDict × Object)
  | [], _ => none
  | l :: ls, n =>
    match l.objects.find? (fun o => o.name == n) with
    | some o => some (l, o)
    | none => findObjectInLibs ls n

/-- `ProjectConfig.find_object(name)`: first object with a matching name over
`self.libs or {}` (an unset `libs` iterates nothing). -/
def ProjectConfig.find_object (c : ProjectConfig) (name : String) :
    Option (LibDict × Object) :=
  findObjectInLibs (c.libs.getD []) name

/-- One record of the execution-result feed (`config.json`'s
`units[...]` / `modules[...].units[...]` entries), with the fields
`generate_objdiff_config` / `calculate_progress` read. -/
structure BuildObj where
  name : String
  object : String
  code_size : Int
  data_size : Int
  autogenerated : Bool
deriving DecidableEq

/-- A `modules` entry of the execution-result feed. -/
structure BuildModule where
  name : String
  units : List BuildObj
deriving DecidableEq

/-- The parsed `config.json` body (fields used by the generator; its
`version` key is kept at the file level, see `FileData`). -/
structure BuildConfig where
  name : String
  units : List BuildObj
  modules : List BuildModule
deriving DecidableEq

/-- `calculate_progress`'s local class `ProgressUnit.__init__`, fields in
source order; the `objects` name-set is modelled as the list of distinct
names in insertion order (newest first). -/
structure ProgressUnit where
  name : String
  code_total : Int := 0
  code_fancy_frac : Int := 0
  code_fancy_item : String := ""
  code_progress : Int := 0
  data_total : Int := 0
  data_fancy_frac : Int := 0
  data_fancy_item : String := ""
  data_progress : Int := 0
  objects_progress : Int := 0
  objects_total : Int := 0
  objects : List String := []
deriving DecidableEq

/-- `ProgressUnit(name)` constructed inside `calculate_progress`: counters at
zero, fancy fields copied from the enclosing `config`. -/
def ProgressUnit.init (config : ProjectConfig) (name : String) : ProgressUnit :=
  { name := name
    code_fancy_frac := config.progress_code_fancy_frac
    code_fancy_item := config.progress_code_fancy_item
    data_fancy_frac := config.progress_data_fancy_frac
    data_fancy_item := config.progress_data_fancy_item }

/-- `ProgressUnit.add(build_obj)`: totals first, then the seen-set object
count, then the early returns for autogenerated records, unmatched names and
incomplete objects, and finally the progress increments.  The enclosing
`config` (for `find_object`) is passed explicitly. -/
def ProgressUnit.add (config : ProjectConfig) (self : ProgressUnit)
    (build_obj : BuildObj) : ProgressUnit :=
  let s1 := { self with
    code_total := self.code_total + build_obj.code_size
    data_total := self.data_total + build_obj.data_size }
  let include_object := !(s1.objects.contains build_obj.name)
  let s2 :=
    if include_object then
      { s1 with objects := build_obj.name :: s1.objects
                objects_total := s1.objects_total + 1 }
    else s1
  if build_obj.autogenerated then s2
  else
    match config.find_object build_obj.name with
    | none => s2
    | some (_, obj) =>
      if !obj.completed then s2
      else
        let s3 := { s2 with
          code_progress := s2.code_progress + build_obj.code_size
          data_progress := s2.data_progress + build_obj.data_size }
        if include_object then
          { s3 with objects_progress := s3.objects_progress + 1 }
        else s3

/-- `ProgressUnit.code_frac`: `self.code_progress / self.code_total`.
Python raises `ZeroDivisionError` when `code_total == 0`; the raise is
modelled as `none`, a finished division as `some` of the exact rational. -/
def ProgressUnit.code_frac (self : ProgressUnit) : Option ℚ :=
  if self.code_total = 0 then none
  else some ((self.code_progress : ℚ) / (self.code_total : ℚ))

/-- `ProgressUnit.data_frac`: `self.data_progress / self.data_total`, with the
`ZeroDivisionError` modelled as `none`. -/
def ProgressUnit.data_frac (self : ProgressUnit) : Option ℚ :=
  if self.data_total = 0 then none
  else some ((self.data_progress : ℚ) / (self.data_total : ℚ))

/-- The values scanned for one flag by `generate_objdiff_config.add_unit`:
`flag.split(" ")[1].split(",")` (index 1 exists whenever the flag starts with
`"-inline "`, which is the only context in which this runs). -/
def inlineScanValues (flag : String) : List String :=
  splitOnChar ',' ((splitOnChar ' ' flag).getD 1 "")

/-- The per-value update of `add_unit`'s `reverse_fn_order` scan:
`"deferred"` sets the flag, `"nodeferred"` clears it, anything else leaves
it. -/
def valStep (a : Bool) (v : String) : Bool :=
  if v = "deferred" then true else if v = "nodeferred" then false else a

/-- The `reverse_fn_order` scan of `generate_objdiff_config.add_unit`: over
all flags starting with `"-inline "`, fold `valStep` over the flag's values,
starting from `False`. -/
def computeReverseFnOrder (cflags : List String) : Bool :=
  cflags.foldl
    (fun acc flag =>
      if startsWithStr flag "-inline " then (inlineScanValues flag).foldl valStep acc
      else acc)
    false

/-- One `units` entry of the emitted `objdiff.json`: `name` and `target_path`
always present, `base_path`/`reverse_fn_order`/`complete` only when
`add_unit` reaches the end of its body. -/
structure UnitConfig where
  name : FPath
  target_path : String
  base_path : Option FPath := none
  reverse_fn_order : Option Bool := none
  complete : Option Bool := none
deriving DecidableEq

/-- The emitted `objdiff.json` document. -/
structure ObjdiffConfig where
  min_version : String
  custom_make : String
  build_target : Bool
  watch_patterns : List String
  units : List UnitConfig
deriving DecidableEq

/-- One statement emitted through `ninja_syntax.Writer`, carrying exactly the
arguments the generator passes (a `variable` whose value is a list is stored
already joined with spaces, as the writer does; paths are stored in their
serialized string form). The byte rendering of a statement is a fixed
function of these fields, so byte-identical output files correspond to equal
statement lists. -/
inductive NStmt where
  | comment (text : String)
  | var (key : String) (value : String)
  | rule (name : String) (command : String) (description : Option String)
         (depfile : Option String) (deps : Option String) (generator : Bool)
  | build (outputs : List String) (ruleName : String) (inputs : List String)
          (implicit : List String) (vars : List (String × String))
  | newline
  | defaultTarget (targets : List String)
deriving DecidableEq

/-- Contents of a file, as far as the generator inspects or produces them:
a parsed `config.json` (its `"version"` value pre-parsed into a version
tuple, `none` when absent/falsy), a generated `build.ninja`, a generated
`objdiff.json`, or anything else (e.g. source files, whose mere existence is
what `add_unit` checks). -/
inductive FileData where
  | configJson (version : Option (List Nat)) (bc : BuildConfig)
  | ninja (stmts : List NStmt)
  | objdiff (oc : ObjdiffConfig)
  | other
deriving DecidableEq

/-- The filesystem the generator touches, as an association list from paths
to file data (later entries shadowed by earlier ones). -/
abbrev FS := List (FPath × FileData)

/-- Look a path up in the filesystem (`Path.exists` / reading the file). -/
def FS.lookup : FS → FPath → Option FileData
  | [], _ => none
  | (q, d) :: t, p => if q = p then some d else FS.lookup t p

/-- `os.remove`: drop a path from the filesystem. -/
def FS.remove : FS → FPath → FS
  | [], _ => []
  | (q, d) :: t, p => if q = p then FS.remove t p else (q, d) :: FS.remove t p

/-- Write a file (create or overwrite). -/
def FS.write (fs : FS) (p : FPath) (d : FileData) : FS := (p, d) :: FS.remove fs p

/-- The ambient process inputs `generate_build_ninja` reads besides the
configuration: `sys.argv`, `sys.executable`, `__file__`, and the platform
tests (`os.name == "nt"`; `sys.platform == "linux" and platform.machine() in
("i386", "x86_64")`). -/
structure Env where
  configure_script : FPath
  argv_tail : List String
  executable : String
  python_lib : FPath
  is_windows : Bool
  linux_x86 : Bool
deriving DecidableEq

/-- `load_build_config.versiontuple`: `tuple(map(int, v.split(".")))`, with
`int`'s `ValueError` as `none`. -/
def versiontuple (v : String) : Option (List Nat) :=
  (splitOnChar '.' v).mapM parseNat

/-- Python tuple `<` on version tuples: lexicographic, a strict prefix is
smaller. -/
def tupleLt : List Nat → List Nat → Bool
  | _, [] => false
  | [], _ :: _ => true
  | x :: xs, y :: ys => if x < y then true else if x = y then tupleLt xs ys else false

/-- The path `generate_build` and `calculate_progress` load the build config
from: `config.out_path() / "config.json"`. -/
def configJsonPath (config : ProjectConfig) : FPath :=
  pjoin (ProjectConfig.out_path config) "config.json"

/-- `load_build_config(config, build_config_path)` at the generator's call
sites: absent file yields `None`; a file without a (truthy) `version` is
deleted and yields `None`; a file older than `str(config.dtk_tag)[1:]` is
deleted and yields `None`; otherwise the parsed build config is returned.
Unparseable JSON or an unparseable tag raise (modelled as `.error`). -/
def load_build_config (config : ProjectConfig) (fs : FS) :
    Except String (FS × Option BuildConfig) :=
  match FS.lookup fs (configJsonPath config) with
  | none => .ok (fs, none)
  | some (.configJson ver bc) =>
    match ver with
    | none => .ok (FS.remove fs (configJsonPath config), none)
    | some v =>
      match versiontuple ((pyStr config.dtk_tag).drop 1) with
      | none => .error "invalid dtk_tag"
      | some dv =>
        if tupleLt v dv then .ok (FS.remove fs (configJsonPath config), none)
        else .ok (fs, some bc)
  | some _ => .error "config.json did not parse as a build config"

/-- The `if config.build_dtk_path: ... elif config.dtk_tag: ... else:
sys.exit("ProjectConfig.dtk_tag missing")` block of `generate_build_ninja`;
returns the emitted statements and the `dtk` path. -/
def dtkStep (config : ProjectConfig) (build_tools_path download_tool : FPath)
    (exe : String) : Except String (List NStmt × FPath) :=
  match config.build_dtk_path with
  | some p =>
    let dtk := pjoin (pjoin build_tools_path "release") ("dtk" ++ exe)
    .ok ([.rule "cargo"
            "cargo build --release --manifest-path $in --bin $bin --target-dir $target"
            (some "CARGO $bin")
            (some (asPosix (pjoin (pjoin (mkPath "$target") "release") "$bin.d")))
            (some "gcc") false,
          .build [asPosix dtk] "cargo" [asPosix (pjoin p "Cargo.toml")]
            [asPosix (pjoin p "Cargo.lock")]
            [("bin", "dtk"), ("target", asPosix build_tools_path)]], dtk)
  | none =>
    match config.dtk_tag with
    | some tag =>
      let dtk := pjoin build_tools_path ("dtk" ++ exe)
      .ok ([.build [asPosix dtk] "download_tool" [] [asPosix download_tool]
              [("tool", "dtk"), ("tag", tag)]], dtk)
    | none => .error "ProjectConfig.dtk_tag missing"

/-- The `if config.sjiswrap_path: ... elif config.sjiswrap_tag: ... else:
sys.exit("ProjectConfig.sjiswrap_tag missing")` block. -/
def sjiswrapStep (config : ProjectConfig) (build_tools_path download_tool : FPath) :
    Except String (List NStmt × FPath) :=
  match config.sjiswrap_path with
  | some p => .ok ([], p)
  | none =>
    match config.sjiswrap_tag with
    | some tag =>
      let s := pjoin build_tools_path "sjiswrap.exe"
      .ok ([.build [asPosix s] "download_tool" [] [asPosix download_tool]
              [("tool", "sjiswrap"), ("tag", tag)]], s)
    | none => .error "ProjectConfig.sjiswrap_tag missing"

/-- The wibo/wine wrapper block: may download wibo (on Linux x86 with a tag
and no explicit wrapper), then falls back to `wine` off Windows; returns the
emitted statements and the final wrapper. -/
def wiboStep (config : ProjectConfig) (env : Env)
    (build_tools_path download_tool : FPath) : List NStmt × Option FPath :=
  let (stmts, wrapper0) :=
    match config.wibo_tag with
    | some tag =>
      if env.linux_x86 && config.wrapper.isNone then
        let w := pjoin build_tools_path "wibo"
        ([NStmt.build [asPosix w] "download_tool" [] [asPosix download_tool]
            [("tool", "wibo"), ("tag", tag)]], some w)
      else ([], config.wrapper)
    | none => ([], config.wrapper)
  if !env.is_windows && wrapper0.isNone then (stmts, some (mkPath "wine"))
  else (stmts, wrapper0)

/-- The `if config.compilers_path: ... elif config.compilers_tag: ... else:
sys.exit("ProjectConfig.compilers_tag missing")` block; returns the emitted
statements and the compilers directory. -/
def compilersStep (config : ProjectConfig) (download_tool : FPath) :
    Except String (List NStmt × FPath) :=
  match config.compilers_path with
  | some p => .ok ([], p)
  | none =>
    match config.compilers_tag with
    | some tag =>
      let c := pjoin config.build_dir "compilers"
      .ok ([.build [asPosix c] "download_tool" [] [asPosix download_tool]
              [("tool", "compilers"), ("tag", tag)]], c)
    | none => .error "ProjectConfig.compilers_tag missing"

/-- `generate_build_ninja(config, build_config)` up to the final
`open("build.ninja", "w")`: validate, emit the header/variable/tooling
statements (exiting on an unresolvable tool), the compile and host rules, the
all-source phony target when a build config is present, and the
reconfigure/default epilogue.  Every `sys.exit` is an `.error`; the returned
statement list is what the source then writes to `build.ninja`.  (The
`used_compiler_versions` loop of the source iterates an always-empty set and
the dead locals `build_src_path`, `mwcc_implicit` and `mwcc_sjis_implicit`
feed no emitted statement; they are not modelled.) -/
def generate_build_ninja (config : ProjectConfig) (env : Env)
    (build_config : Option BuildConfig) : Except String (List NStmt) :=
  match validate config with
  | some msg => .error msg
  | none =>
  let exe := if env.is_windows then ".exe" else ""
  let configure_script := env.configure_script
  let python_lib := env.python_lib
  let python_lib_dir := python_lib.dropLast
  let header := [NStmt.var "ninja_required_version" "1.3", .newline,
    .comment "The arguments passed to configure.py, for rerunning it.",
    .var "configure_args" (joinSp env.argv_tail),
    .var "python" ("\"" ++ env.executable ++ "\""),
    .newline]
  let ldflags0 := joinSp (config.ldflags.getD [])
  let ldflags1 := if config.generate_map then ldflags0 ++ " -mapunused" else ldflags0
  let ldflags2 := if config.debug then ldflags1 ++ " -g" else ldflags1
  let varStmts := [NStmt.comment "Variables", .var "ldflags" ldflags2] ++
    (match config.linker_version with
     | some v => [NStmt.var "mw_version" v]
     | none => []) ++ [NStmt.newline]
  let build_path := ProjectConfig.out_path config
  let progress_path := pjoin build_path "progress.json"
  let build_tools_path := pjoin config.build_dir "tools"
  let download_tool := pjoin config.tools_dir "download_tool.py"
  let toolingHeader := [NStmt.comment "Tooling",
    .rule "download_tool"
      ("$python " ++ asPosix download_tool ++ " $tool $out --tag $tag")
      (some "TOOL $out") none none false]
  match dtkStep config build_tools_path download_tool exe with
  | .error e => .error e
  | .ok (dtkStmts, _dtk) =>
  match sjiswrapStep config build_tools_path download_tool with
  | .error e => .error e
  | .ok (sjisStmts, sjiswrap) =>
  let (wiboStmts, wrapper) := wiboStep config env build_tools_path download_tool
  let wrapper_cmd := match wrapper with | some w => asPosix w ++ " " | none => ""
  match compilersStep config download_tool with
  | .error e => .error e
  | .ok (compilerStmts, compilers) =>
  let compiler_path := pjoin compilers "$mw_version"
  let mwcc := pjoin compiler_path "mwcceppc.exe"
  let mwcc_cmd0 := wrapper_cmd ++ asPosix mwcc ++ " $cflags -MMD -c $in -o $basedir"
  let mwcc_sjis_cmd0 := wrapper_cmd ++ asPosix sjiswrap ++ " " ++ asPosix mwcc
    ++ " $cflags -MMD -c $in -o $basedir"
  let transform_dep := pjoin config.tools_dir "transform_dep.py"
  let transformSuffix := " && $python " ++ asPosix transform_dep ++ " $basefile.d $basefile.d"
  let mwcc_cmd := if !env.is_windows then mwcc_cmd0 ++ transformSuffix else mwcc_cmd0
  let mwcc_sjis_cmd := if !env.is_windows then mwcc_sjis_cmd0 ++ transformSuffix else mwcc_sjis_cmd0
  let ruleStmts := [NStmt.comment "MWCC build",
    .rule "mwcc" mwcc_cmd (some "MWCC $out") (some "$basefile.d") (some "gcc") false,
    .newline,
    .comment "MWCC build (with UTF-8 to Shift JIS wrapper)",
    .rule "mwcc_sjis" mwcc_sjis_cmd (some "MWCC $out") (some "$basefile.d") (some "gcc") false,
    .newline,
    .comment "Host build",
    .var "host_cflags" "-I include -Wno-trigraphs",
    .var "host_cppflags" "-std=c++98 -I include -fno-exceptions -fno-rtti -D_CRT_SECURE_NO_WARNINGS -Wno-trigraphs -Wno-c++11-extensions",
    .rule "host_cc" "clang $host_cflags -c -o $out $in" (some "CC $out") none none false,
    .rule "host_cpp" "clang++ $host_cppflags -c -o $out $in" (some "CXX $out") none none false,
    .newline,
    .comment "Source files"]
  let build_config_path := pjoin build_path "config.json"
  let srcStmts := match build_config with
    | some _ => [NStmt.comment "Build all source files",
                 .build ["all_source"] "phony" [] [] [], .newline]
    | none => []
  let reconfStmts := [NStmt.comment "Reconfigure on change",
    .rule "configure" ("$python " ++ asPosix configure_script ++ " $configure_args")
      (some ("RUN " ++ asPosix configure_script)) none none true,
    .build ["build.ninja"] "configure" []
      [asPosix build_config_path, asPosix configure_script, asPosix python_lib,
       asPosix (pjoin python_lib_dir "ninja_syntax.py")] [],
    .newline,
    .comment "Default rule",
    .defaultTarget [asPosix (match build_config with
      | some _ => progress_path
      | none => build_config_path)]]
  .ok (header ++ varStmts ++ toolingHeader ++ dtkStmts ++ sjisStmts ++ wiboStmts
    ++ compilerStmts ++ [NStmt.newline] ++ ruleStmts ++ srcStmts ++ reconfStmts)

/-- The reference-source path `add_unit` checks for existence:
`Path(lib.get("src_dir", config.src_dir)) / str(obj.options["source"])`. -/
def unitSrcPath (config : ProjectConfig) (lib : LibDict) (obj : Object) : FPath :=
  pjoin (lib.src_dir.getD config.src_dir) obj.source

/-- `generate_objdiff_config.add_unit(build_obj, module_name)`: `none` means
the unit is skipped, `some u` that `u` is appended to the `units` list.
Autogenerated objects are skipped; objects without a matching declared unit,
or whose source file does not exist, get only `name` and `target_path`;
otherwise `base_path`, `reverse_fn_order` (from `obj.options["cflags"] or
lib["cflags"]`, always a list here) and `complete` are filled in. -/
def addUnit (config : ProjectConfig) (fs : FS) (build_path : FPath)
    (build_obj : BuildObj) (module_name : String) : Option UnitConfig :=
  if build_obj.autogenerated then none
  else
    let base_object := withSuffix (mkPath build_obj.name) ""
    let unit_config : UnitConfig :=
      { name := mkPath module_name ++ base_object, target_path := build_obj.object }
    match config.find_object build_obj.name with
    | none => some unit_config
    | some (lib, obj) =>
      if FS.lookup fs (unitSrcPath config lib obj) = none then some unit_config
      else
        let cflags := match obj.cflags with
          | some (c :: cs) => c :: cs
          | _ => lib.cflags
        let src_obj_path := pjoin (pjoin build_path "src") (asPosix base_object ++ ".o")
        some { unit_config with
          base_path := some src_obj_path
          reverse_fn_order := some (computeReverseFnOrder cflags)
          complete := some obj.completed }

/-- The fixed `watch_patterns` list of `generate_objdiff_config`. -/
def watchPatterns : List String :=
  ["*.c", "*.cp", "*.cpp", "*.h", "*.hpp", "*.inc", "*.py", "*.yml", "*.txt", "*.json"]

/-- `generate_objdiff_config(config, build_config)` up to the final write:
`none` (no file written) without a build config, otherwise the document with
DOL units first and module units after, in input order. -/
def generate_objdiff_config (config : ProjectConfig) (fs : FS)
    (build_config : Option BuildConfig) : Option ObjdiffConfig :=
  match build_config with
  | none => none
  | some bc =>
    let build_path := ProjectConfig.out_path config
    some { min_version := "0.4.3", custom_make := "ninja", build_target := false
           watch_patterns := watchPatterns
           units :=
             bc.units.filterMap (fun u => addUnit config fs build_path u bc.name)
             ++ bc.modules.flatMap
                  (fun m => m.units.filterMap (fun u => addUnit config fs build_path u m.name)) }

/-- Where `generate_build_ninja` writes its output: `open("build.ninja")` in
the current directory. -/
def buildNinjaPath : FPath := ["build.ninja"]

/-- Where `generate_objdiff_config` writes its output: `open("objdiff.json")`
in the current directory. -/
def objdiffJsonPath : FPath := ["objdiff.json"]

/-- `generate_build(config)`: load (and possibly discard) `config.json`, then
generate and write `build.ninja`, then generate and write `objdiff.json`.
Returns the final filesystem and, on success, the written files with their
contents; `.error` carries a `sys.exit` message, nothing having been
written. -/
def generate_build (env : Env) (config : ProjectConfig) (fs : FS) :
    FS × Except String (List (FPath × FileData)) :=
  match load_build_config config fs with
  | .error e => (fs, .error e)
  | .ok (fs1, bc) =>
    match generate_build_ninja config env bc with
    | .error e => (fs1, .error e)
    | .ok stmts =>
      let fs2 := FS.write fs1 buildNinjaPath (.ninja stmts)
      match generate_objdiff_config config fs2 bc with
      | none => (fs2, .ok [(buildNinjaPath, .ninja stmts)])
      | some oc =>
        (FS.write fs2 objdiffJsonPath (.objdiff oc),
         .ok [(buildNinjaPath, .ninja stmts), (objdiffJsonPath, .objdiff oc)])

/-- Whether an `Except` result is a success. -/
def isOkE {α : Type} (e : Except String α) : Bool :=
  match e with
  | .ok _ => true
  | .error _ => false

/-- All reference-source paths whose existence `generate_objdiff_config` can
consult for a given build config (one per build object with a matching
declared unit). -/
def srcReadPaths (config : ProjectConfig) (bc : BuildConfig) : List FPath :=
  (bc.units ++ bc.modules.flatMap (fun m => m.units)).filterMap
    (fun u => match config.find_object u.name with
      | some (lib, obj) => some (unitSrcPath config lib obj)
      | none => none)

/-- The build config a run loads from a filesystem (ignoring the possible
stale-file deletion), used to phrase hypotheses about a run's reads. -/
def loadedBuildConfig (config : ProjectConfig) (fs : FS) : Option BuildConfig :=
  match load_build_config config fs with
  | .ok (_, bc) => bc
  | .error _ => none

end Proj

example : Proj.computeReverseFnOrder ["-inline auto", "-inline deferred,depth=3"] = true := by decide
example : Proj.computeReverseFnOrder ["-inline deferred", "-inline nodeferred"] = false := by decide
example : Proj.computeReverseFnOrder ["-inline deferred", "-inline auto"] = true := by decide
example : Proj.computeReverseFnOrder ["-char signed"] = false := by decide

namespace Cfg

/-- The `Object` built by `Lib.__init__.create_pair` for one
`(profile, unit)`, with the directory lets inlined. -/
def objectFor (config : ProjectConfig) (name : String) (profile : Profile)
    (u : Unit) : Object :=
  { src := pjoin config.src_dir name ++ mkPath u.name
    base := pjoin (pjoin (pjoin config.output_dir "obj") profile.name) name
      ++ withSuffix (mkPath u.name) ".o"
    target := pjoin (pjoin (pjoin config.output_dir "src") profile.name) name
      ++ withSuffix (mkPath u.name) ".o"
    dwarf := pjoin (pjoin (pjoin config.output_dir "dwarf") profile.name) name
      ++ withSuffix (mkPath u.name) ".c"
    mwcc := mkPath "GC/1.2.5"
    cflags := ("-char " ++ (if u.signed_char then "signed" else "unsigned"))
      :: profile.cflags }

/-- The `Diff` built by `Lib.__init__.create_pair` for one `(profile, unit)`. -/
def diffFor (config : ProjectConfig) (name : String) (profile : Profile)
    (u : Unit) : Diff :=
  { name := asPosix (withSuffix (mkPath profile.name ++ mkPath name ++ mkPath u.name) "")
    target_path := pjoin (pjoin (pjoin config.output_dir "src") profile.name) name
      ++ withSuffix (mkPath u.name) ".o"
    base_path := pjoin (pjoin (pjoin config.output_dir "obj") profile.name) name
      ++ withSuffix (mkPath u.name) ".o"
    reverse_fn_order := false
    complete := u.complete }

/-- The `Archive` appended by one iteration of `Lib.__init__`'s profile loop. -/
def archiveFor (config : ProjectConfig) (name : String) (units : List Unit)
    (profile : Profile) : Archive :=
  { src := pjoin config.archive_dir (name ++ profile.archive_suffix ++ ".a")
    dst := pjoin (pjoin (pjoin config.output_dir "obj") profile.name) name
    manifest := (units.map (fun u =>
      relativeTo (objectFor config name profile u).base
        (pjoin (pjoin (pjoin config.output_dir "obj") profile.name) name))).dedup }

lemma libStep_spec (config : ProjectConfig) (name : String) (units : List Unit)
    (acc : Lib) (profile : Profile) :
    libStep config name units acc profile =
      { archives := acc.archives ++ [archiveFor config name units profile]
        objects := acc.objects ++ units.map (objectFor config name profile)
        diffs := acc.diffs ++ units.map (diffFor config name profile) } := by
  simp only [libStep, archiveFor, objectFor, diffFor, List.map_map]
  rfl

lemma lib_foldl_spec (config : ProjectConfig) (name : String) (units : List Unit) :
    ∀ (ps : List Profile) (acc : Lib),
      ps.foldl (libStep config name units) acc =
        { archives := acc.archives ++ ps.map (archiveFor config name units)
          objects := acc.objects ++ ps.flatMap (fun p => units.map (objectFor config name p))
          diffs := acc.diffs ++ ps.flatMap (fun p => units.map (diffFor config name p)) }
  | [], acc => by simp
  | p :: ps, acc => by
    rw [List.foldl_cons, lib_foldl_spec config name units ps, libStep_spec]
    simp

lemma lib_init_spec (config : ProjectConfig) (name : String) (units : List Unit) :
    Lib.init config name units =
      { archives := config.profiles.map (archiveFor config name units)
        objects := config.profiles.flatMap (fun p => units.map (objectFor config name p))
        diffs := config.profiles.flatMap (fun p => units.map (diffFor config name p)) } := by
  rw [Lib.init, lib_foldl_spec]
  simp

lemma flatMap_map_length {α β γ : Type} (ps : List α) (us : List β) (f : α → β → γ) :
    (ps.flatMap (fun p => us.map (f p))).length = ps.length * us.length := by
  induction ps with
  | nil => simp
  | cons p t ih => simp [ih, Nat.succ_mul, Nat.add_comm]

lemma relativeTo_append (base rest : FPath) : relativeTo (base ++ rest) base = rest := by
  rw [relativeTo, if_pos, List.drop_left]
  exact List.isPrefixOf_iff_prefix.mpr (List.prefix_append base rest)

end Cfg

/-- C1: constructing a library from a list of profiles and a list of units
produces exactly `len(profiles) * len(units)` `Object`s, `len(profiles)`
`Archive`s and `len(profiles) * len(units)` `Diff`s, and over any list of
libraries the total number of generated `Object`s is the sum over libraries
of `profiles * units`. -/
theorem c1_lib_cross_product_counts (config : Cfg.ProjectConfig) (name : String)
    (units : List Cfg.Unit) :
    (Cfg.Lib.init config name units).objects.length
        = config.profiles.length * units.length
    ∧ (Cfg.Lib.init config name units).archives.length = config.profiles.length
    ∧ (Cfg.Lib.init config name units).diffs.length
        = config.profiles.length * units.length
    ∧ ∀ (libDecls : List (String × List Cfg.Unit)),
        (libDecls.map (fun l => (Cfg.Lib.init config l.1 l.2).objects.length)).sum
          = (libDecls.map (fun l => config.profiles.length * l.2.length)).sum := by
  refine ⟨?_, ?_, ?_, ?_⟩
  · rw [Cfg.lib_init_spec]; exact Cfg.flatMap_map_length ..
  · rw [Cfg.lib_init_spec]; simp
  · rw [Cfg.lib_init_spec]; exact Cfg.flatMap_map_length ..
  · intro libDecls
    have h : ∀ l ∈ libDecls, (Cfg.Lib.init config l.1 l.2).objects.length
        = config.profiles.length * l.2.length := by
      intro l _
      rw [Cfg.lib_init_spec]
      exact Cfg.flatMap_map_length ..
    rw [List.map_congr_left h]

/-- C2 counterexample: for profile `release`, library `os`, unit `OSAlloc.c`,
`out_root = build/v`, the intermediate object path actually produced by
`Lib.__init__` is `build/v/obj/release/os/OSAlloc.o`, not the claimed
`build/v/release/os/obj/OSAlloc.o` (and likewise the `src`/`dwarf` families
put the kind directory before the profile and library). -/
theorem c2_path_order_counterexample :
    ((Cfg.Lib.init
        { profiles := [⟨"release", "D", []⟩]
          output_dir := ["build", "v"], archive_dir := ["orig", "v"] }
        "os" [⟨"OSAlloc.c", true, false⟩]).objects.map Cfg.Object.base
      = [["build", "v", "obj", "release", "os", "OSAlloc.o"]])
    ∧ (["build", "v", "obj", "release", "os", "OSAlloc.o"] : FPath)
        ≠ ["build", "v", "release", "os", "obj", "OSAlloc.o"] := by
  constructor
  · decide
  · decide

/-- C2 amended: the resolver derives source path
`src_root/library/unit_path`, and the derived families are
`out_root/obj/profile/library/<unit>.o` (intermediate),
`out_root/src/profile/library/<unit>.o` (extracted reference) and
`out_root/dwarf/profile/library/<unit>.c` (disassembly) — the kind directory
comes first, then profile, then library (the claim had
`out_root/profile/library/<kind>/...`); `<unit>` is the unit path with its
suffix replaced. -/
theorem c2_path_resolver_amended (config : Cfg.ProjectConfig) (name : String)
    (units : List Cfg.Unit) :
    (Cfg.Lib.init config name units).objects
      = config.profiles.flatMap (fun p => units.map (fun u =>
          { src := config.src_dir ++ mkPath name ++ mkPath u.name
            base := config.output_dir ++ ["obj"] ++ mkPath p.name ++ mkPath name
              ++ withSuffix (mkPath u.name) ".o"
            target := config.output_dir ++ ["src"] ++ mkPath p.name ++ mkPath name
              ++ withSuffix (mkPath u.name) ".o"
            dwarf := config.output_dir ++ ["dwarf"] ++ mkPath p.name ++ mkPath name
              ++ withSuffix (mkPath u.name) ".c"
            mwcc := ["GC", "1.2.5"]
            cflags := ("-char " ++ (if u.signed_char then "signed" else "unsigned"))
              :: p.cflags })) := by
  have h : ∀ (p : Cfg.Profile) (u : Cfg.Unit), Cfg.objectFor config name p u =
      { src := config.src_dir ++ mkPath name ++ mkPath u.name
        base := config.output_dir ++ ["obj"] ++ mkPath p.name ++ mkPath name
          ++ withSuffix (mkPath u.name) ".o"
        target := config.output_dir ++ ["src"] ++ mkPath p.name ++ mkPath name
          ++ withSuffix (mkPath u.name) ".o"
        dwarf := config.output_dir ++ ["dwarf"] ++ mkPath p.name ++ mkPath name
          ++ withSuffix (mkPath u.name) ".c"
        mwcc := ["GC", "1.2.5"]
        cflags := ("-char " ++ (if u.signed_char then "signed" else "unsigned"))
          :: p.cflags } := by
    intro p u
    simp only [Cfg.objectFor, pjoin,
      show mkPath "obj" = ["obj"] from by decide,
      show mkPath "src" = ["src"] from by decide,
      show mkPath "dwarf" = ["dwarf"] from by decide,
      show mkPath "GC/1.2.5" = ["GC", "1.2.5"] from by decide]
  rw [Cfg.lib_init_spec]
  exact congrArg (List.flatMap config.profiles)
    (funext fun p => List.map_congr_left fun u _ => h p u)

/-- C5 counterexample: a library declared with two units of the same name is
constructed without any error: `Lib.__init__` contains no duplicate-name
check (the embedding is total because the source raises nothing), the full
cross product is produced — with colliding intermediate object paths — and
the only visible effect is that the archive manifest, a set, collapses the
duplicates. -/
theorem c5_duplicate_units_counterexample :
    ((Cfg.Lib.init
        { profiles := [⟨"release", "D", []⟩]
          output_dir := ["build", "v"], archive_dir := ["orig", "v"] }
        "os" [⟨"a.c", true, false⟩, ⟨"a.c", true, false⟩]).objects.map Cfg.Object.base
      = [["build", "v", "obj", "release", "os", "a.o"],
         ["build", "v", "obj", "release", "os", "a.o"]])
    ∧ ((Cfg.Lib.init
        { profiles := [⟨"release", "D", []⟩]
          output_dir := ["build", "v"], archive_dir := ["orig", "v"] }
        "os" [⟨"a.c", true, false⟩, ⟨"a.c", true, false⟩]).archives.map Cfg.Archive.manifest
      = [[["a.o"]]]) := by
  constructor
  · decide
  · decide

namespace Proj

/-- An inlining-order flag value, in the spec's sense: exactly `"deferred"`
or `"nodeferred"` (the two values the scan reacts to). -/
def isInlineOrderValue (v : String) : Bool := v == "deferred" || v == "nodeferred"

/-- All values of `-inline` flags, in scan order (spec-side description of
what `add_unit` iterates over). -/
def allInlineValues (cflags : List String) : List String :=
  cflags.flatMap (fun f => if startsWithStr f "-inline " then inlineScanValues f else [])

/-- Written from the claim's words: the last occurrence of an inlining-order
flag value among the resolved flags' `-inline` values. -/
def lastInlineOrderValue (cflags : List String) : Option String :=
  (allInlineValues cflags).reverse.find? isInlineOrderValue

lemma computeReverseFnOrder_eq_foldl (cflags : List String) :
    computeReverseFnOrder cflags = (allInlineValues cflags).foldl valStep false := by
  rw [computeReverseFnOrder]
  generalize false = b
  induction cflags generalizing b with
  | nil => simp [allInlineValues]
  | cons f t ih =>
    rw [List.foldl_cons, ih]
    conv_rhs => rw [allInlineValues, List.flatMap_cons]
    rw [List.foldl_append]
    by_cases hf : startsWithStr f "-inline " <;> simp [hf, allInlineValues]

lemma foldl_valStep (vs : List String) (b : Bool) :
    vs.foldl valStep b = (match vs.reverse.find? isInlineOrderValue with
      | some v => v == "deferred"
      | none => b) := by
  induction vs generalizing b with
  | nil => simp
  | cons v t ih =>
    rw [List.foldl_cons, ih]
    rw [List.reverse_cons, List.find?_append]
    cases hf : t.reverse.find? isInlineOrderValue with
    | some w => simp
    | none =>
      by_cases h1 : v = "deferred"
      · simp [h1, isInlineOrderValue, valStep]
      · by_cases h2 : v = "nodeferred"
        · simp [h2, isInlineOrderValue, valStep]
        · simp [valStep, h1, h2, isInlineOrderValue]

lemma compute_iff_last (cflags : List String) :
    computeReverseFnOrder cflags = true ↔ lastInlineOrderValue cflags = some "deferred" := by
  rw [computeReverseFnOrder_eq_foldl, foldl_valStep, lastInlineOrderValue]
  cases hf : (allInlineValues cflags).reverse.find? isInlineOrderValue with
  | none => simp
  | some v =>
    show (v == "deferred") = true ↔ some v = some "deferred"
    constructor
    · intro h
      rw [eq_of_beq h]
    · intro h
      have hveq : v = "deferred" := by injection h
      rw [hveq]
      decide

/-- The claim's progress-credit condition, resolved exactly as
`ProgressUnit.add` does: `find_object` (first declared unit with a matching
name) succeeds and that unit's `complete` flag is true. -/
def completedMatch (config : ProjectConfig) (n : String) : Bool :=
  match ProjectConfig.find_object config n with
  | some (_, obj) => obj.completed
  | none => false

end Proj

/-- C5 amended: project-model construction performs no duplicate-unit-name
validation: for any configuration and unit, a library declared with the same
unit twice is constructed successfully, producing one `Object` and one `Diff`
per occurrence and per profile (so duplicate intermediate paths), while each
archive manifest — being a set — collapses to the distinct paths. -/
theorem c5_duplicate_units_amended (config : Cfg.ProjectConfig) (name : String)
    (u : Cfg.Unit) :
    (Cfg.Lib.init config name [u, u]).objects.length = config.profiles.length * 2
    ∧ (Cfg.Lib.init config name [u, u]).diffs.length = config.profiles.length * 2
    ∧ ∀ a ∈ (Cfg.Lib.init config name [u, u]).archives,
        a.manifest = [withSuffix (mkPath u.name) ".o"] := by
  refine ⟨?_, ?_, ?_⟩
  · rw [Cfg.lib_init_spec]
    simpa using Cfg.flatMap_map_length config.profiles [u, u] (Cfg.objectFor config name)
  · rw [Cfg.lib_init_spec]
    simpa using Cfg.flatMap_map_length config.profiles [u, u] (Cfg.diffFor config name)
  · intro a ha
    rw [Cfg.lib_init_spec] at ha
    simp only [List.mem_map] at ha
    obtain ⟨p, _, rfl⟩ := ha
    simp [Cfg.archiveFor, Cfg.objectFor, Cfg.relativeTo_append, List.dedup_cons_of_mem]

/-- Concrete configuration for exercising the C4 claim: one profile whose
flags contain `-inline deferred`. -/
def c4Cfg : Cfg.ProjectConfig :=
  { profiles := [⟨"release", "D", ["-inline deferred"]⟩]
    output_dir := [], archive_dir := [] }

/-- The single `Diff` record `Lib.__init__` builds under `c4Cfg` for library
`os` and unit `a.c`. -/
def c4Diff : Cfg.Diff :=
  { name := "release/os/a"
    target_path := ["src", "release", "os", "a.o"]
    base_path := ["obj", "release", "os", "a.o"]
    reverse_fn_order := false
    complete := true }

/-- C4 counterexample: under `c4Cfg` the unit's resolved flags are
`["-char unsigned", "-inline deferred"]`, whose last inlining-order value is
`"deferred"`, yet the generated `Diff` has `reverse_fn_order = false`:
`Lib.__init__` hardcodes `reverse_fn_order=False`, so the claimed iff fails
on these `Diff`s. -/
theorem c4_lib_diff_counterexample :
    ((Cfg.Lib.init c4Cfg "os" [⟨"a.c", true, false⟩]).objects.map Cfg.Object.cflags
      = [["-char unsigned", "-inline deferred"]])
    ∧ ((Cfg.Lib.init c4Cfg "os" [⟨"a.c", true, false⟩]).diffs.map Cfg.Diff.reverse_fn_order
      = [false])
    ∧ Proj.lastInlineOrderValue ["-char unsigned", "-inline deferred"] = some "deferred" := by
  refine ⟨by decide, by decide, by decide⟩

/-- C4 amended: the last-occurrence rule holds for the `reverse_fn_order`
value computed by the diff-metadata emitter (`add_unit`'s scan,
`computeReverseFnOrder`): it is true iff the last inlining-order flag value
is exactly `"deferred"` (false when absent or when the last is
`"nodeferred"`); the `Diff` records built by `config.py`'s `Lib.__init__`,
however, always carry `reverse_fn_order = false`. -/
theorem c4_reverse_fn_order_amended :
    (∀ cflags : List String,
        Proj.computeReverseFnOrder cflags = true
          ↔ Proj.lastInlineOrderValue cflags = some "deferred")
    ∧ ∀ (config : Cfg.ProjectConfig) (name : String) (units : List Cfg.Unit),
        ∀ d ∈ (Cfg.Lib.init config name units).diffs, d.reverse_fn_order = false := by
  constructor
  · exact Proj.compute_iff_last
  · intro config name units d hd
    rw [Cfg.lib_init_spec] at hd
    simp only [List.mem_flatMap, List.mem_map] at hd
    obtain ⟨p, _, u, _, rfl⟩ := hd
    rfl

/-- Witness for C4's amended theorem at concrete inputs: the emitter's scan
reports true for flags ending in `deferred`, and the concrete `Diff` built
under `c4Cfg` carries `reverse_fn_order = false`. -/
theorem c4_reverse_fn_order_amended_witness :
    Proj.computeReverseFnOrder ["-char unsigned", "-inline deferred"] = true
    ∧ c4Diff.reverse_fn_order = false :=
  ⟨(c4_reverse_fn_order_amended.1 ["-char unsigned", "-inline deferred"]).mpr (by decide),
   c4_reverse_fn_order_amended.2 c4Cfg "os" [⟨"a.c", true, false⟩] c4Diff (by decide)⟩

/-- C3 counterexample: a freshly constructed `ProgressUnit` has
`code_total = 0`, and computing its completion fraction raises
`ZeroDivisionError` (modelled: `none`) instead of reporting `0.0`. -/
theorem c3_zero_total_counterexample :
    (Proj.ProgressUnit.init {} "All").code_total = 0
    ∧ (Proj.ProgressUnit.init {} "All").code_frac = none
    ∧ (Proj.ProgressUnit.init {} "All").code_frac ≠ some 0 := by
  refine ⟨by decide, by decide, by decide⟩

/-- C3 amended: for a grouping with `code_total = 0` (resp. `data_total = 0`)
the fraction computation raises a `ZeroDivisionError` (modelled: `none`)
rather than reporting `0.0`; for a nonzero total it is exactly
`progress / total`. -/
theorem c3_frac_amended (p : Proj.ProgressUnit) :
    (p.code_total = 0 → p.code_frac = none)
    ∧ (p.code_total ≠ 0 →
        p.code_frac = some ((p.code_progress : ℚ) / (p.code_total : ℚ)))
    ∧ (p.data_total = 0 → p.data_frac = none)
    ∧ (p.data_total ≠ 0 →
        p.data_frac = some ((p.data_progress : ℚ) / (p.data_total : ℚ))) := by
  refine ⟨fun h => ?_, fun h => ?_, fun h => ?_, fun h => ?_⟩ <;>
    simp [Proj.ProgressUnit.code_frac, Proj.ProgressUnit.data_frac, h]

/-- A concrete partially-filled grouping for the C3 witness. -/
def c3P : Proj.ProgressUnit :=
  { name := "DOL", code_total := 200, code_progress := 120 }

/-- Witness for C3's amended theorem: the zero-total branch on a fresh
grouping and the nonzero branch on `c3P`. -/
theorem c3_frac_amended_witness :
    (Proj.ProgressUnit.init {} "All").code_frac = none
    ∧ c3P.code_frac = some ((c3P.code_progress : ℚ) / (c3P.code_total : ℚ))
    ∧ c3P.data_frac = none :=
  ⟨(c3_frac_amended (Proj.ProgressUnit.init {} "All")).1 (by decide),
   (c3_frac_amended c3P).2.1 (by decide),
   (c3_frac_amended c3P).2.2.1 (by decide)⟩

/-- A grouping that has already counted the object `OSFont.c`, for C6. -/
def c6P : Proj.ProgressUnit :=
  { name := "All", objects_total := 1, objects := ["OSFont.c"] }

/-- An autogenerated execution-result record with zero sizes whose name is
already in `c6P`'s seen set. -/
def c6R : Proj.BuildObj :=
  { name := "OSFont.c", object := "build/v/obj/os/OSFont.o"
    code_size := 0, data_size := 0, autogenerated := true }

/-- C6 counterexample: folding the autogenerated record `c6R` into `c6P`
changes nothing at all — in particular `objects_total`, `code_total` and
`data_total` do not increase (the name is already in the seen set and the
sizes are zero), contradicting the claim that they always increase. -/
theorem c6_autogenerated_counterexample :
    Proj.ProgressUnit.add {} c6P c6R = c6P
    ∧ (Proj.ProgressUnit.add {} c6P c6R).objects_total = c6P.objects_total
    ∧ (Proj.ProgressUnit.add {} c6P c6R).code_total = c6P.code_total
    ∧ c6R.autogenerated = true := by
  refine ⟨by decide, by decide, by decide, by decide⟩

/-- C6 amended: folding an autogenerated record adds its `code_size` and
`data_size` to the totals (so they increase only when the sizes are
positive), adds 1 to `objects_total` iff the record's name is not already in
the grouping's seen set, and never changes `code_progress`, `data_progress`
or `objects_progress`, regardless of any `complete` flag in the project
model. -/
theorem c6_autogenerated_amended (config : Proj.ProjectConfig)
    (p : Proj.ProgressUnit) (b : Proj.BuildObj) (h : b.autogenerated = true) :
    (Proj.ProgressUnit.add config p b).code_total = p.code_total + b.code_size
    ∧ (Proj.ProgressUnit.add config p b).data_total = p.data_total + b.data_size
    ∧ (Proj.ProgressUnit.add config p b).objects_total
        = (if p.objects.contains b.name then p.objects_total else p.objects_total + 1)
    ∧ (Proj.ProgressUnit.add config p b).code_progress = p.code_progress
    ∧ (Proj.ProgressUnit.add config p b).data_progress = p.data_progress
    ∧ (Proj.ProgressUnit.add config p b).objects_progress = p.objects_progress := by
  unfold Proj.ProgressUnit.add
  by_cases hc : b.name ∈ p.objects <;> simp [h, hc]

/-- Witness for C6's amended theorem at a concrete input: a fresh grouping
and an autogenerated record of 64 code bytes. -/
theorem c6_autogenerated_amended_witness :
    (Proj.ProgressUnit.add {} (Proj.ProgressUnit.init {} "All")
        { name := "auto_00.c", object := "o", code_size := 64, data_size := 4,
          autogenerated := true }).code_total
      = (Proj.ProgressUnit.init {} "All").code_total + 64
    ∧ (Proj.ProgressUnit.add {} (Proj.ProgressUnit.init {} "All")
        { name := "auto_00.c", object := "o", code_size := 64, data_size := 4,
          autogenerated := true }).code_progress
      = (Proj.ProgressUnit.init {} "All").code_progress :=
  ⟨(c6_autogenerated_amended {} (Proj.ProgressUnit.init {} "All") _ (by decide)).1,
   (c6_autogenerated_amended {} (Proj.ProgressUnit.init {} "All") _ (by decide)).2.2.2.1⟩

/-- C7: folding a non-autogenerated record always adds its sizes to the
totals, and adds them to `code_progress`/`data_progress` exactly when the
project model's first declared unit with a matching name exists and has
`complete = true` (`completedMatch`); with a positive code size, the
progress counter strictly increases iff that condition holds. -/
theorem c7_progress_credit (config : Proj.ProjectConfig)
    (p : Proj.ProgressUnit) (b : Proj.BuildObj) (h : b.autogenerated = false) :
    (Proj.ProgressUnit.add config p b).code_total = p.code_total + b.code_size
    ∧ (Proj.ProgressUnit.add config p b).data_total = p.data_total + b.data_size
    ∧ (Proj.ProgressUnit.add config p b).code_progress
        = p.code_progress + (if Proj.completedMatch config b.name then b.code_size else 0)
    ∧ (Proj.ProgressUnit.add config p b).data_progress
        = p.data_progress + (if Proj.completedMatch config b.name then b.data_size else 0)
    ∧ (0 < b.code_size →
        (p.code_progress < (Proj.ProgressUnit.add config p b).code_progress
          ↔ Proj.completedMatch config b.name = true)) := by
  unfold Proj.ProgressUnit.add Proj.completedMatch
  cases hf : Proj.ProjectConfig.find_object config b.name with
  | none =>
    by_cases hc : b.name ∈ p.objects <;> simp [h, hc, hf]
  | some r =>
    obtain ⟨lib, obj⟩ := r
    cases hco : obj.completed <;>
      by_cases hc : b.name ∈ p.objects <;> simp [h, hc, hf, hco]

/-- The `os` library dictionary used by the C7 witness, with `OSAlloc.c`
declared complete and `OSReboot.c` not. -/
def c7OsLib : Proj.LibDict :=
  { lib := "os"
    archive := ["orig", "v", "os.a"]
    mw_version := "GC/1.2.5"
    cflags := ["-O4,p"]
    host := false
    objects := [Proj.Object.make true "OSAlloc.c",
                Proj.Object.make false "OSReboot.c"] }

/-- The project configuration used by the C7 witness. -/
def c7Cfg : Proj.ProjectConfig :=
  { libs := some [c7OsLib] }

/-- Witness for C7 at the spec's scenario: an `OSAlloc.c` record with
`code_size = 120` and a complete declared unit credits 120 to
`code_progress`; an `OSReboot.c` record (declared incomplete) credits 0 but
still adds to `code_total`. -/
theorem c7_progress_credit_witness :
    ((Proj.ProgressUnit.add c7Cfg (Proj.ProgressUnit.init c7Cfg "DOL")
        { name := "OSAlloc.c", object := "o", code_size := 120, data_size := 8,
          autogenerated := false }).code_progress
      = (Proj.ProgressUnit.init c7Cfg "DOL").code_progress
        + (if Proj.completedMatch c7Cfg "OSAlloc.c" then 120 else 0))
    ∧ ((Proj.ProgressUnit.add c7Cfg (Proj.ProgressUnit.init c7Cfg "DOL")
        { name := "OSReboot.c", object := "o", code_size := 120, data_size := 8,
          autogenerated := false }).code_total
      = (Proj.ProgressUnit.init c7Cfg "DOL").code_total + 120) :=
  ⟨(c7_progress_credit c7Cfg (Proj.ProgressUnit.init c7Cfg "DOL") _ (by decide)).2.2.1,
   (c7_progress_credit c7Cfg (Proj.ProgressUnit.init c7Cfg "DOL") _ (by decide)).1⟩

namespace Proj

lemma dtkStep_ok (config : ProjectConfig) (btp dlt : FPath) (exe : String)
    (h : config.build_dtk_path ≠ none ∨ config.dtk_tag ≠ none) :
    ∃ r, dtkStep config btp dlt exe = .ok r := by
  unfold dtkStep
  cases hb : config.build_dtk_path with
  | some p => exact ⟨_, rfl⟩
  | none =>
    cases ht : config.dtk_tag with
    | some t => exact ⟨_, rfl⟩
    | none => rcases h with h | h <;> simp [hb, ht] at h

lemma sjiswrapStep_ok (config : ProjectConfig) (btp dlt : FPath)
    (h : config.sjiswrap_path ≠ none ∨ config.sjiswrap_tag ≠ none) :
    ∃ r, sjiswrapStep config btp dlt = .ok r := by
  unfold sjiswrapStep
  cases hb : config.sjiswrap_path with
  | some p => exact ⟨_, rfl⟩
  | none =>
    cases ht : config.sjiswrap_tag with
    | some t => exact ⟨_, rfl⟩
    | none => rcases h with h | h <;> simp [hb, ht] at h

lemma compilersStep_error (config : ProjectConfig) (dlt : FPath)
    (hcp : config.compilers_path = none) (hct : config.compilers_tag = none) :
    compilersStep config dlt = .error "ProjectConfig.compilers_tag missing" := by
  unfold compilersStep
  rw [hcp, hct]

end Proj

/-- C8: with no compilers path and no compilers download tag (and the other
tools resolvable and the required attributes set, so that no earlier exit
fires), `generate_build_ninja` exits with the message naming the missing
compilers tool; on a filesystem with no stale `config.json`, the whole
`generate_build` run exits with that message, the filesystem unchanged and
nothing written. -/
theorem c8_missing_compilers (config : Proj.ProjectConfig) (env : Proj.Env)
    (bc : Option Proj.BuildConfig)
    (hval : Proj.validate config = none)
    (hdtk : config.build_dtk_path ≠ none ∨ config.dtk_tag ≠ none)
    (hsjis : config.sjiswrap_path ≠ none ∨ config.sjiswrap_tag ≠ none)
    (hcp : config.compilers_path = none) (hct : config.compilers_tag = none) :
    Proj.generate_build_ninja config env bc
        = .error "ProjectConfig.compilers_tag missing"
    ∧ ∀ fs : Proj.FS, Proj.FS.lookup fs (Proj.configJsonPath config) = none →
        Proj.generate_build env config fs
          = (fs, .error "ProjectConfig.compilers_tag missing") := by
  have hgen : ∀ bc0 : Option Proj.BuildConfig,
      Proj.generate_build_ninja config env bc0
        = .error "ProjectConfig.compilers_tag missing" := by
    intro bc0
    obtain ⟨⟨s1, d1⟩, hrd⟩ := Proj.dtkStep_ok config (pjoin config.build_dir "tools")
      (pjoin config.tools_dir "download_tool.py") (if env.is_windows then ".exe" else "") hdtk
    obtain ⟨⟨s2, d2⟩, hrs⟩ := Proj.sjiswrapStep_ok config (pjoin config.build_dir "tools")
      (pjoin config.tools_dir "download_tool.py") hsjis
    have hce := Proj.compilersStep_error config (pjoin config.tools_dir "download_tool.py") hcp hct
    simp only [Proj.generate_build_ninja, hval, hrd, hrs, hce]
  refine ⟨hgen bc, fun fs hfs => ?_⟩
  simp only [Proj.generate_build, Proj.load_build_config, hfs, hgen none]

/-- C10: for every build object fed to the diff-metadata emitter, `add_unit`
(1) yields nothing when the object is autogenerated — and such an object is
omitted entirely from the emitted unit list; (2) yields an entry with only
`name` and `target_path` when no declared unit matches; (3) likewise when a
declared unit matches but its source file does not exist; (4) otherwise
fills in `base_path`, `reverse_fn_order` and `complete` as well. -/
theorem c10_objdiff_unit_fields (config : Proj.ProjectConfig) (fs : Proj.FS)
    (build_path : FPath) (u : Proj.BuildObj) (module_name : String) :
    (u.autogenerated = true →
        Proj.addUnit config fs build_path u module_name = none
        ∧ ∀ (before after : List Proj.BuildObj),
            ((before ++ u :: after).filterMap
                (fun x => Proj.addUnit config fs build_path x module_name))
              = ((before ++ after).filterMap
                (fun x => Proj.addUnit config fs build_path x module_name)))
    ∧ (u.autogenerated = false →
        Proj.ProjectConfig.find_object config u.name = none →
        Proj.addUnit config fs build_path u module_name
          = some { name := mkPath module_name ++ withSuffix (mkPath u.name) ""
                   target_path := u.object })
    ∧ (u.autogenerated = false → ∀ lib obj,
        Proj.ProjectConfig.find_object config u.name = some (lib, obj) →
        Proj.FS.lookup fs (Proj.unitSrcPath config lib obj) = none →
        Proj.addUnit config fs build_path u module_name
          = some { name := mkPath module_name ++ withSuffix (mkPath u.name) ""
                   target_path := u.object })
    ∧ (u.autogenerated = false → ∀ lib obj,
        Proj.ProjectConfig.find_object config u.name = some (lib, obj) →
        Proj.FS.lookup fs (Proj.unitSrcPath config lib obj) ≠ none →
        Proj.addUnit config fs build_path u module_name
          = some { name := mkPath module_name ++ withSuffix (mkPath u.name) ""
                   target_path := u.object
                   base_path := some (pjoin (pjoin build_path "src")
                     (asPosix (withSuffix (mkPath u.name) "") ++ ".o"))
                   reverse_fn_order := some (Proj.computeReverseFnOrder
                     (match obj.cflags with
                      | some (c :: cs) => c :: cs
                      | _ => lib.cflags))
                   complete := some obj.completed }) := by
  refine ⟨fun h => ⟨?_, ?_⟩, fun h hf => ?_, fun h lib obj hf hs => ?_,
    fun h lib obj hf hs => ?_⟩
  · simp [Proj.addUnit, h]
  · intro before after
    simp [List.filterMap_append, List.filterMap_cons, Proj.addUnit, h]
  · simp [Proj.addUnit, h, hf]
  · simp [Proj.addUnit, h, hf, hs]
  · simp [Proj.addUnit, h, hf, hs]

/-- An autogenerated build object for the C10 witness. -/
def c10AutoObj : Proj.BuildObj :=
  { name := "auto_0.c", object := "t.o", code_size := 0, data_size := 0,
    autogenerated := true }

/-- A build object with no declared unit, for the C10 witness. -/
def c10FooObj : Proj.BuildObj :=
  { name := "foo.c", object := "t.o", code_size := 10, data_size := 2,
    autogenerated := false }

/-- A build object matching the declared, complete unit `OSAlloc.c`. -/
def c10AllocObj : Proj.BuildObj :=
  { name := "OSAlloc.c", object := "t.o", code_size := 120, data_size := 8,
    autogenerated := false }

/-- A filesystem on which `src/OSAlloc.c` exists. -/
def c10FS : Proj.FS := [(["src", "OSAlloc.c"], Proj.FileData.other)]

/-- Witness for C10 at concrete inputs: an autogenerated object is omitted,
an unmatched object gets the minimal entry, and a matched object whose
source exists gets the full entry. -/
theorem c10_objdiff_unit_fields_witness :
    Proj.addUnit c7Cfg c10FS ["build", "v"] c10AutoObj "main" = none
    ∧ Proj.addUnit c7Cfg c10FS ["build", "v"] c10FooObj "main"
        = some { name := mkPath "main" ++ withSuffix (mkPath c10FooObj.name) ""
                 target_path := c10FooObj.object }
    ∧ Proj.addUnit c7Cfg c10FS ["build", "v"] c10AllocObj "main"
        = some { name := mkPath "main" ++ withSuffix (mkPath c10AllocObj.name) ""
                 target_path := c10AllocObj.object
                 base_path := some (pjoin (pjoin ["build", "v"] "src")
                   (asPosix (withSuffix (mkPath c10AllocObj.name) "") ++ ".o"))
                 reverse_fn_order := some (Proj.computeReverseFnOrder
                   (match (Proj.Object.make true "OSAlloc.c").cflags with
                    | some (c :: cs) => c :: cs
                    | _ => c7OsLib.cflags))
                 complete := some (Proj.Object.make true "OSAlloc.c").completed } :=
  ⟨((c10_objdiff_unit_fields c7Cfg c10FS ["build", "v"] c10AutoObj "main").1 (by decide)).1,
   (c10_objdiff_unit_fields c7Cfg c10FS ["build", "v"] c10FooObj "main").2.1 (by decide) (by decide),
   (c10_objdiff_unit_fields c7Cfg c10FS ["build", "v"] c10AllocObj "main").2.2.2 (by decide)
     c7OsLib (Proj.Object.make true "OSAlloc.c") (by decide) (by decide)⟩

namespace Proj

lemma lookup_remove_self (fs : FS) (p : FPath) :
    FS.lookup (FS.remove fs p) p = none := by
  induction fs with
  | nil => rfl
  | cons e t ih =>
    obtain ⟨q, d⟩ := e
    by_cases h : q = p
    · simpa [FS.remove, h] using ih
    · simpa [FS.remove, FS.lookup, h] using ih

lemma lookup_remove_ne (fs : FS) (p q : FPath) (h : q ≠ p) :
    FS.lookup (FS.remove fs p) q = FS.lookup fs q := by
  induction fs with
  | nil => rfl
  | cons e t ih =>
    obtain ⟨r, d⟩ := e
    by_cases hr : r = p
    · have hrq : r ≠ q := fun hh => h (hh.symm.trans hr)
      simp only [FS.remove, if_pos hr, FS.lookup, if_neg hrq, ih]
    · by_cases hq : r = q
      · simp only [FS.remove, if_neg hr, FS.lookup, if_pos hq]
      · simp only [FS.remove, if_neg hr, FS.lookup, if_neg hq, ih]

lemma lookup_write_self (fs : FS) (p : FPath) (d : FileData) :
    FS.lookup (FS.write fs p d) p = some d := by
  simp [FS.write, FS.lookup]

lemma lookup_write_ne (fs : FS) (p q : FPath) (d : FileData) (h : q ≠ p) :
    FS.lookup (FS.write fs p d) q = FS.lookup fs q := by
  have hpq : p ≠ q := fun hh => h hh.symm
  simp only [FS.write, FS.lookup, if_neg hpq]
  exact lookup_remove_ne fs p q h

lemma load_stable (config : ProjectConfig) (fs fs1 fs2 : FS) (bc : Option BuildConfig)
    (hl : load_build_config config fs = .ok (fs1, bc))
    (h2 : FS.lookup fs2 (configJsonPath config) = FS.lookup fs1 (configJsonPath config)) :
    load_build_config config fs2 = .ok (fs2, bc) := by
  unfold load_build_config at hl ⊢
  cases hc : FS.lookup fs (configJsonPath config) with
  | none =>
    rw [hc] at hl
    simp only [Except.ok.injEq, Prod.mk.injEq] at hl
    obtain ⟨hfs1, hbc⟩ := hl
    subst hbc
    rw [h2, ← hfs1, hc]
  | some fd =>
    cases fd with
    | configJson ver b =>
      cases ver with
      | none =>
        rw [hc] at hl
        simp only [Except.ok.injEq, Prod.mk.injEq] at hl
        obtain ⟨hfs1, hbc⟩ := hl
        subst hbc
        rw [h2, ← hfs1, lookup_remove_self]
      | some v =>
        cases hdv : versiontuple ((pyStr config.dtk_tag).drop 1) with
        | none => rw [hc, hdv] at hl; exact absurd hl (by simp)
        | some dv =>
          by_cases hlt : tupleLt v dv = true
          · rw [hc, hdv] at hl
            simp only [hlt, if_true, Except.ok.injEq, Prod.mk.injEq] at hl
            obtain ⟨hfs1, hbc⟩ := hl
            subst hbc
            rw [h2, ← hfs1, lookup_remove_self]
          · rw [hc, hdv] at hl
            simp only [hlt, if_false, Bool.false_eq_true, Except.ok.injEq,
              Prod.mk.injEq] at hl
            obtain ⟨hfs1, hbc⟩ := hl
            subst hbc
            rw [h2, ← hfs1, hc]
            simp [hdv, hlt]
    | ninja s => rw [hc] at hl; exact absurd hl (by simp)
    | objdiff o => rw [hc] at hl; exact absurd hl (by simp)
    | other => rw [hc] at hl; exact absurd hl (by simp)

lemma addUnit_fs_congr (config : ProjectConfig) (fsa fsb : FS) (build_path : FPath)
    (u : BuildObj) (module_name : String)
    (h : ∀ lib obj, ProjectConfig.find_object config u.name = some (lib, obj) →
        FS.lookup fsa (unitSrcPath config lib obj)
          = FS.lookup fsb (unitSrcPath config lib obj)) :
    addUnit config fsa build_path u module_name
      = addUnit config fsb build_path u module_name := by
  unfold addUnit
  cases ha : u.autogenerated with
  | true => simp
  | false =>
    simp only [Bool.false_eq_true, if_false]
    cases hf : ProjectConfig.find_object config u.name with
    | none => rfl
    | some r =>
      obtain ⟨lib, obj⟩ := r
      simp only [h lib obj hf]

lemma objdiff_fs_congr (config : ProjectConfig) (fsa fsb : FS) (bc : BuildConfig)
    (h : ∀ p ∈ srcReadPaths config bc, FS.lookup fsa p = FS.lookup fsb p) :
    generate_objdiff_config config fsa (some bc)
      = generate_objdiff_config config fsb (some bc) := by
  have hu : ∀ u ∈ bc.units ++ bc.modules.flatMap (fun m => m.units),
      ∀ mn : String, addUnit config fsa (ProjectConfig.out_path config) u mn
        = addUnit config fsb (ProjectConfig.out_path config) u mn := by
    intro u hmem mn
    apply addUnit_fs_congr
    intro lib obj hf
    apply h
    unfold srcReadPaths
    exact List.mem_filterMap.mpr ⟨u, hmem, by rw [hf]⟩
  have hA : List.filterMap
        (fun u => addUnit config fsa (ProjectConfig.out_path config) u bc.name) bc.units
      = List.filterMap
        (fun u => addUnit config fsb (ProjectConfig.out_path config) u bc.name) bc.units :=
    List.filterMap_congr fun u hu2 => hu u (List.mem_append_left _ hu2) bc.name
  have hB : (bc.modules.flatMap fun m => List.filterMap
        (fun u => addUnit config fsa (ProjectConfig.out_path config) u m.name) m.units)
      = bc.modules.flatMap fun m => List.filterMap
        (fun u => addUnit config fsb (ProjectConfig.out_path config) u m.name) m.units :=
    List.flatMap_congr fun m hm =>
      List.filterMap_congr fun u hu2 =>
        hu u (List.mem_append_right _ (List.mem_flatMap.mpr ⟨m, hm, hu2⟩)) m.name
  simp only [generate_objdiff_config]
  rw [hA, hB]

end Proj

/-- C9: running the generator twice with identical configuration input (same
`config` and process environment) and no external filesystem changes in
between produces identical build-graph and diff-metadata outputs: the second
run of `generate_build`, on the filesystem left by a successful first run,
returns exactly the same written files and contents (hypotheses: the
`config.json` input path and the consulted source paths are distinct from
the two output paths, which holds for the real layouts). -/
theorem c9_regeneration_deterministic (env : Proj.Env) (config : Proj.ProjectConfig)
    (fs : Proj.FS)
    (hok : Proj.isOkE (Proj.generate_build env config fs).2 = true)
    (hcj1 : Proj.configJsonPath config ≠ Proj.buildNinjaPath)
    (hcj2 : Proj.configJsonPath config ≠ Proj.objdiffJsonPath)
    (hsrc : ∀ bc, Proj.loadedBuildConfig config fs = some bc →
        ∀ p ∈ Proj.srcReadPaths config bc,
          p ≠ Proj.buildNinjaPath ∧ p ≠ Proj.objdiffJsonPath) :
    (Proj.generate_build env config (Proj.generate_build env config fs).1).2
      = (Proj.generate_build env config fs).2 := by
  cases hl : Proj.load_build_config config fs with
  | error e =>
    simp only [Proj.generate_build, hl, Proj.isOkE] at hok
    exact Bool.noConfusion hok
  | ok pr =>
    obtain ⟨fs1, bc⟩ := pr
    cases hn : Proj.generate_build_ninja config env bc with
    | error e =>
      simp only [Proj.generate_build, hl, hn, Proj.isOkE] at hok
      exact Bool.noConfusion hok
    | ok stmts =>
      cases bc with
      | none =>
        have hrun1 : Proj.generate_build env config fs
            = (Proj.FS.write fs1 Proj.buildNinjaPath (.ninja stmts),
               .ok [(Proj.buildNinjaPath, .ninja stmts)]) := by
          simp only [Proj.generate_build, hl, hn, Proj.generate_objdiff_config]
        have hload2 : Proj.load_build_config config
              (Proj.FS.write fs1 Proj.buildNinjaPath (.ninja stmts))
            = .ok (Proj.FS.write fs1 Proj.buildNinjaPath (.ninja stmts), none) :=
          Proj.load_stable config fs fs1 _ none hl
            (Proj.lookup_write_ne fs1 Proj.buildNinjaPath (Proj.configJsonPath config)
              _ hcj1)
        rw [hrun1]
        simp only [Proj.generate_build, hload2, hn, Proj.generate_objdiff_config]
      | some b =>
        have hsrc2 := hsrc b (by simp [Proj.loadedBuildConfig, hl])
        cases ho : Proj.generate_objdiff_config config
            (Proj.FS.write fs1 Proj.buildNinjaPath (.ninja stmts)) (some b) with
        | none => simp [Proj.generate_objdiff_config] at ho
        | some oc =>
          have hrun1 : Proj.generate_build env config fs
              = (Proj.FS.write
                   (Proj.FS.write fs1 Proj.buildNinjaPath (.ninja stmts))
                   Proj.objdiffJsonPath (.objdiff oc),
                 .ok [(Proj.buildNinjaPath, .ninja stmts),
                      (Proj.objdiffJsonPath, .objdiff oc)]) := by
            simp only [Proj.generate_build, hl, hn, ho]
          have hload2 : Proj.load_build_config config
                (Proj.FS.write
                  (Proj.FS.write fs1 Proj.buildNinjaPath (.ninja stmts))
                  Proj.objdiffJsonPath (.objdiff oc))
              = .ok (Proj.FS.write
                  (Proj.FS.write fs1 Proj.buildNinjaPath (.ninja stmts))
                  Proj.objdiffJsonPath (.objdiff oc), some b) := by
            apply Proj.load_stable config fs fs1 _ (some b) hl
            rw [Proj.lookup_write_ne _ _ _ _ hcj2,
              Proj.lookup_write_ne _ _ _ _ hcj1]
          have ho2 : Proj.generate_objdiff_config config
                (Proj.FS.write
                  (Proj.FS.write
                    (Proj.FS.write fs1 Proj.buildNinjaPath (.ninja stmts))
                    Proj.objdiffJsonPath (.objdiff oc))
                  Proj.buildNinjaPath (.ninja stmts)) (some b)
              = some oc := by
            rw [← ho]
            apply Proj.objdiff_fs_congr
            intro p hp
            obtain ⟨hp1, hp2⟩ := hsrc2 p hp
            rw [Proj.lookup_write_ne _ _ _ _ hp1,
              Proj.lookup_write_ne _ _ _ _ hp2,
              Proj.lookup_write_ne _ _ _ _ hp1]
          rw [hrun1]
          simp only [Proj.generate_build, hload2, hn, ho2]

/-- A fully specified project configuration (all required attributes set,
every tool given a download tag) for the C9 witness. -/
def c9Cfg : Proj.ProjectConfig :=
  { check_sha_path := some ["sha1"]
    config_path := some ["config.yml"]
    ldflags := some ["-fp", "hardware"]
    linker_version := some "GC/1.2.5"
    libs := some []
    version := some "DOLSDK-2001-05-22"
    dtk_tag := some "v0.7.4"
    sjiswrap_tag := some "v1.1.1"
    compilers_tag := some "20231018" }

/-- A concrete process environment for the C9 witness. -/
def c9Env : Proj.Env :=
  { configure_script := ["configure.py"]
    argv_tail := ["--map"]
    executable := "python3"
    python_lib := ["tools", "project.py"]
    is_windows := false
    linux_x86 := false }

/-- Witness for C9 at a concrete input: on an empty filesystem the first run
succeeds, and the second run over its output produces the same outputs. -/
theorem c9_regeneration_deterministic_witness :
    (Proj.generate_build c9Env c9Cfg (Proj.generate_build c9Env c9Cfg []).1).2
      = (Proj.generate_build c9Env c9Cfg []).2 :=
  c9_regeneration_deterministic c9Env c9Cfg []
    (by decide) (by decide) (by decide)
    (fun bc h => nomatch h)

/-- A configuration with every required attribute set and dtk/sjiswrap
resolvable, but no compilers path and no compilers tag, for the C8 witness. -/
def c8Cfg : Proj.ProjectConfig :=
  { check_sha_path := some ["sha1"]
    config_path := some ["config.yml"]
    ldflags := some []
    linker_version := some "GC/1.2.5"
    libs := some []
    version := some "DOLSDK-2001-05-22"
    dtk_tag := some "v0.7.4"
    sjiswrap_tag := some "v1.1.1"
    compilers_tag := none
    compilers_path := none }

/-- Witness for C8 at a concrete input: generation exits with the message
naming the missing compilers tool, and on a fresh filesystem the run leaves
the filesystem untouched and writes nothing. -/
theorem c8_missing_compilers_witness :
    Proj.generate_build_ninja c8Cfg c9Env none
        = .error "ProjectConfig.compilers_tag missing"
    ∧ Proj.generate_build c9Env c8Cfg []
        = ([], .error "ProjectConfig.compilers_tag missing") :=
  ⟨(c8_missing_compilers c8Cfg c9Env none (by decide) (by decide) (by decide)
      (by decide) (by decide)).1,
   (c8_missing_compilers c8Cfg c9Env none (by decide) (by decide) (by decide)
      (by decide) (by decide)).2 [] (by decide)⟩

/-- The concrete archive built by `Lib.__init__` for the duplicated-unit
library of the C5 witness. -/
def c5Archive : Cfg.Archive :=
  { src := ["orig", "v", "osD.a"]
    dst := ["build", "v", "obj", "release", "os"]
    manifest := [["a.o"]] }

/-- Witness for C5's amended theorem at a concrete input: the duplicated-unit
library yields two objects under one profile and its archive's manifest is
the collapsed singleton. -/
theorem c5_duplicate_units_amended_witness :
    (Cfg.Lib.init
        { profiles := [⟨"release", "D", []⟩]
          output_dir := ["build", "v"], archive_dir := ["orig", "v"] }
        "os" [⟨"a.c", true, false⟩, ⟨"a.c", true, false⟩]).objects.length = 1 * 2
    ∧ c5Archive.manifest = [withSuffix (mkPath "a.c") ".o"] :=
  ⟨(c5_duplicate_units_amended
      { profiles := [⟨"release", "D", []⟩]
        output_dir := ["build", "v"], archive_dir := ["orig", "v"] }
      "os" ⟨"a.c", true, false⟩).1,
   (c5_duplicate_units_amended
      { profiles := [⟨"release", "D", []⟩]
        output_dir := ["build", "v"], archive_dir := ["orig", "v"] }
      "os" ⟨"a.c", true, false⟩).2.2 c5Archive (by decide)⟩
